import Mathlib

/-!
Verification of the typed-parameter system and physics-parameter dispatcher
of `gazebo/physics/PhysicsEngine.cc` (which also contains the `sdf::Param`
implementation).

The development shallowly embeds the C++ source:
* `ParamValue` / `Param` model `sdf::ParamT<T>` / `sdf::Param` (type-erased
  parameter handles with a runtime type-name tag);
* `parseVec3` / `parseVec2i` / `parseVec2d` model the string fallback paths of
  `Param::Get(Vector3&)`, `Param::Get(Vector2i&)`, `Param::Get(Vector2d&)`;
* `AnyValue`, `SetParam`, `GetParam`, `decodeEntry`, `OnPhysicsMsg` model
  `boost::any`, `PhysicsEngine::SetParam`, `PhysicsEngine::GetParam` and
  `PhysicsEngine::OnPhysicsMsg`.

Machine doubles are modelled as exact rationals (`ℚ`); none of the proved
properties depend on floating-point rounding.  C++ exceptions
(`boost::bad_lexical_cast`, `boost::bad_any_cast`) are modelled as `Option` /
explicit failure results, matching the source's catch-and-return-false
structure.  A `std::vector` subscript that is out of bounds is undefined
behaviour in the source; it is modelled as a distinct `outOfBounds` outcome.
Tokens produced by string splitting are kept as `List Char`, the character
sequence of the corresponding `std::string`.
-/

namespace Gazebo

/-- 3D vector of doubles, modelling `sdf::Vector3` / `math::Vector3`. -/
structure Vec3 where
  x : ℚ
  y : ℚ
  z : ℚ
deriving DecidableEq, Repr

/-- 2D integer vector, modelling `sdf::Vector2i`. -/
structure Vec2i where
  x : ℤ
  y : ℤ
deriving DecidableEq, Repr

/-- 2D double vector, modelling `sdf::Vector2d`. -/
structure Vec2d where
  x : ℚ
  y : ℚ
deriving DecidableEq, Repr

/-- Quaternion, modelling `sdf::Quaternion`. -/
structure Quaternion where
  w : ℚ
  x : ℚ
  y : ℚ
  z : ℚ
deriving DecidableEq, Repr

/-- Pose (position + orientation), modelling `sdf::Pose`. -/
structure Pose where
  pos : Vec3
  rot : Quaternion
deriving DecidableEq, Repr

/-- RGBA color, modelling `sdf::Color`. -/
structure Color where
  r : ℚ
  g : ℚ
  b : ℚ
  a : ℚ
deriving DecidableEq, Repr

/-- Time (seconds + nanoseconds), modelling `sdf::Time`. -/
structure Time where
  sec : ℤ
  nsec : ℤ
deriving DecidableEq, Repr

/-- Helper for `splitOnSpace`: `acc` is the current piece, reversed. -/
def splitSpAux : List Char → List Char → List (List Char)
  | [], acc => [acc.reverse]
  | c :: rest, acc =>
    if c = ' ' then acc.reverse :: splitSpAux rest []
    else splitSpAux rest (c :: acc)

/-- `boost::split(pieces, s, boost::is_any_of(" "))`: cut the string at every
space, keeping empty pieces (consecutive spaces yield empty tokens). -/
def splitOnSpace (s : String) : List (List Char) :=
  splitSpAux s.toList []

/-- Numeric value of a digit list, most significant first. -/
def digitsVal (cs : List Char) : ℕ :=
  cs.foldl (fun a c => a * 10 + (c.toNat - 48)) 0

/-- `boost::lexical_cast<double>` on a token: optional sign, decimal mantissa
with at least one digit, optional exponent; the whole token must be consumed.
The value is kept exact as a rational. -/
def parseDouble (cs : List Char) : Option ℚ :=
  let signRest : ℚ × List Char :=
    match cs with
    | '-' :: rest => (-1, rest)
    | '+' :: rest => (1, rest)
    | _ => (1, cs)
  let sign := signRest.1
  let intSplit := signRest.2.span (·.isDigit)
  let intPart := intSplit.1
  let fracSplit : Option (List Char) × List Char :=
    match intSplit.2 with
    | '.' :: rest =>
      let fs := rest.span (·.isDigit)
      (some fs.1, fs.2)
    | _ => (none, intSplit.2)
  let fracPart := fracSplit.1
  if intPart.isEmpty && (fracPart.map List.isEmpty).getD true then none
  else
    let mant : ℚ :=
      (digitsVal intPart : ℚ) +
        (match fracPart with
         | some f => (digitsVal f : ℚ) / (10 ^ f.length)
         | none => 0)
    match fracSplit.2 with
    | [] => some (sign * mant)
    | 'e' :: rest =>
      let esignRest : ℤ × List Char :=
        match rest with
        | '-' :: r => (-1, r)
        | '+' :: r => (1, r)
        | _ => (1, rest)
      let eds := esignRest.2.span (·.isDigit)
      if eds.1.isEmpty || !eds.2.isEmpty then none
      else some (sign * mant * (10 : ℚ) ^ (esignRest.1 * (digitsVal eds.1 : ℤ)))
    | 'E' :: rest =>
      let esignRest : ℤ × List Char :=
        match rest with
        | '-' :: r => (-1, r)
        | '+' :: r => (1, r)
        | _ => (1, rest)
      let eds := esignRest.2.span (·.isDigit)
      if eds.1.isEmpty || !eds.2.isEmpty then none
      else some (sign * mant * (10 : ℚ) ^ (esignRest.1 * (digitsVal eds.1 : ℤ)))
    | _ => none

/-- `boost::lexical_cast<int>` on a token: optional sign, one or more digits,
whole token consumed, result within the 32-bit signed range. -/
def parseIntTok (cs : List Char) : Option ℤ :=
  let signRest : ℤ × List Char :=
    match cs with
    | '-' :: rest => (-1, rest)
    | '+' :: rest => (1, rest)
    | _ => (1, cs)
  let ds := signRest.2.span (·.isDigit)
  if ds.1.isEmpty || !ds.2.isEmpty then none
  else
    let v : ℤ := signRest.1 * (digitsVal ds.1 : ℤ)
    if v < -(2 ^ 31) || 2 ^ 31 ≤ v then none else some v

/-- The element-collecting loop of the vector fallback paths: walk the pieces
in order, skip empty pieces, `lexical_cast` each non-empty piece (parameterised
by the per-token parser), abort with `none` on the first cast failure. -/
def collectElements {α : Type} (tok : List Char → Option α) :
    List (List Char) → Option (List α)
  | [] => some []
  | p :: rest =>
    if p = [] then collectElements tok rest
    else
      match tok p with
      | some v => (collectElements tok rest).map (v :: ·)
      | none => none

/-- Outcome of the `Vector3` string-parse fallback in `Param::Get(Vector3&)`.
`outOfBounds` marks an out-of-range `std::vector` subscript (undefined
behaviour in the source). -/
inductive Vec3Parse where
  | ok (x y z : ℚ)
  | wrongCount
  | invalidNumber
  | outOfBounds
deriving DecidableEq, Repr

/-- Outcome of the `Vector2i` / `Vector2d` string-parse fallbacks. -/
inductive Vec2Parse (α : Type) where
  | ok (x y : α)
  | wrongCount
  | invalidNumber
  | outOfBounds
deriving DecidableEq, Repr

/-- The string-fallback body of `Param::Get(Vector3&)`: split on single
spaces (`boost::split`, keeping empty pieces), fail if the RAW piece count is
not 3, then collect the non-empty pieces as doubles and read
`elements[0..2]`. -/
def parseVec3 (s : String) : Vec3Parse :=
  let pieces := splitOnSpace s
  if pieces.length ≠ 3 then .wrongCount
  else
    match collectElements parseDouble pieces with
    | none => .invalidNumber
    | some elements =>
      match elements.get? 0, elements.get? 1, elements.get? 2 with
      | some x, some y, some z => .ok x y z
      | _, _, _ => .outOfBounds

/-- The string-fallback body of `Param::Get(Vector2i&)`. -/
def parseVec2i (s : String) : Vec2Parse ℤ :=
  let pieces := splitOnSpace s
  if pieces.length ≠ 2 then .wrongCount
  else
    match collectElements parseIntTok pieces with
    | none => .invalidNumber
    | some elements =>
      match elements.get? 0, elements.get? 1 with
      | some x, some y => .ok x y
      | _, _ => .outOfBounds

/-- The string-fallback body of `Param::Get(Vector2d&)`. -/
def parseVec2d (s : String) : Vec2Parse ℚ :=
  let pieces := splitOnSpace s
  if pieces.length ≠ 2 then .wrongCount
  else
    match collectElements parseDouble pieces with
    | none => .invalidNumber
    | some elements =>
      match elements.get? 0, elements.get? 1 with
      | some x, some y => .ok x y
      | _, _ => .outOfBounds

/-- The typed payload of a parameter handle, modelling the value stored by the
template subclass `sdf::ParamT<T>`.  One constructor per supported `T`. -/
inductive ParamValue where
  | boolV (b : Bool)
  | intV (n : ℤ)
  | uintV (n : ℕ)
  | floatV (f : ℚ)
  | doubleV (d : ℚ)
  | charV (c : Char)
  | strV (s : String)
  | vector3V (v : Vec3)
  | vector2iV (v : Vec2i)
  | vector2dV (v : Vec2d)
  | quaternionV (q : Quaternion)
  | poseV (p : Pose)
  | colorV (c : Color)
  | timeV (t : Time)
deriving DecidableEq, Repr

/-- The `typeName` string that `ParamT<T>` stores for its payload type; this
is the runtime tag the `Is*` predicates compare against. -/
def ParamValue.typeName : ParamValue → String
  | .boolV _ => "bool"
  | .intV _ => "int"
  | .uintV _ => "unsigned int"
  | .floatV _ => "float"
  | .doubleV _ => "double"
  | .charV _ => "char"
  | .strV _ => "string"
  | .vector3V _ => "vector3"
  | .vector2iV _ => "vector2i"
  | .vector2dV _ => "vector2d"
  | .quaternionV _ => "quaternion"
  | .poseV _ => "pose"
  | .colorV _ => "color"
  | .timeV _ => "time"

/-- `boost::lexical_cast<std::string>` of the stored payload
(`ParamT::GetAsString`).  For the string kind this is the stored string
itself; for numeric kinds a Lean rendering stands in for the C++ stream
formatting (no theorem below depends on the rendering of a non-string
payload). -/
def ParamValue.toStr : ParamValue → String
  | .boolV b => if b then "1" else "0"
  | .intV n => toString n
  | .uintV n => toString n
  | .floatV f => toString f
  | .doubleV d => toString d
  | .charV c => String.mk [c]
  | .strV s => s
  | .vector3V v => toString v.x ++ " " ++ toString v.y ++ " " ++ toString v.z
  | .vector2iV v => toString v.x ++ " " ++ toString v.y
  | .vector2dV v => toString v.x ++ " " ++ toString v.y
  | .quaternionV q =>
    toString q.w ++ " " ++ toString q.x ++ " " ++ toString q.y ++ " " ++
      toString q.z
  | .poseV p =>
    toString p.pos.x ++ " " ++ toString p.pos.y ++ " " ++ toString p.pos.z
  | .colorV c =>
    toString c.r ++ " " ++ toString c.g ++ " " ++ toString c.b ++ " " ++
      toString c.a
  | .timeV t => toString t.sec ++ " " ++ toString t.nsec

/-- A type-erased parameter handle, modelling `sdf::Param` together with the
payload held by its `ParamT<T>` subclass.  The source stores `typeName` as a
separate member initialised from `T` at `ParamT<T>` construction, so the tag
is determined by the payload type; here `GetTypeName` is derived from the
payload, which encodes that construction invariant. -/
structure Param where
  key : String
  required : Bool
  isSet : Bool
  description : String
  value : ParamValue
deriving DecidableEq, Repr

/-- `Param::GetTypeName`. -/
def Param.GetTypeName (p : Param) : String :=
  p.value.typeName

/-- `Param::GetAsString` (the handle's current string form). -/
def Param.GetAsString (p : Param) : String :=
  p.value.toStr

/-- `Param::IsBool`. -/
def Param.IsBool (p : Param) : Bool := p.GetTypeName == "bool"

/-- `Param::IsInt`. -/
def Param.IsInt (p : Param) : Bool := p.GetTypeName == "int"

/-- `Param::IsUInt`. -/
def Param.IsUInt (p : Param) : Bool := p.GetTypeName == "unsigned int"

/-- `Param::IsFloat`. -/
def Param.IsFloat (p : Param) : Bool := p.GetTypeName == "float"

/-- `Param::IsDouble`. -/
def Param.IsDouble (p : Param) : Bool := p.GetTypeName == "double"

/-- `Param::IsChar`. -/
def Param.IsChar (p : Param) : Bool := p.GetTypeName == "char"

/-- `Param::IsStr`. -/
def Param.IsStr (p : Param) : Bool := p.GetTypeName == "string"

/-- `Param::IsVector3`. -/
def Param.IsVector3 (p : Param) : Bool := p.GetTypeName == "vector3"

/-- `Param::IsVector2i`. -/
def Param.IsVector2i (p : Param) : Bool := p.GetTypeName == "vector2i"

/-- `Param::IsVector2d`. -/
def Param.IsVector2d (p : Param) : Bool := p.GetTypeName == "vector2d"

/-- `Param::IsQuaternion`. -/
def Param.IsQuaternion (p : Param) : Bool := p.GetTypeName == "quaternion"

/-- `Param::IsPose`. -/
def Param.IsPose (p : Param) : Bool := p.GetTypeName == "pose"

/-- `Param::IsColor`. -/
def Param.IsColor (p : Param) : Bool := p.GetTypeName == "color"

/-- `Param::IsTime`. -/
def Param.IsTime (p : Param) : Bool := p.GetTypeName == "time"

/-- Payload extractors modelling the checked downcast
`((ParamT<T>*)this)->GetValue()`: defined only when the payload really has
kind `T` (the source guards each cast with the corresponding `Is*` check). -/
def ParamValue.asBool : ParamValue → Option Bool
  | .boolV b => some b
  | _ => none

def ParamValue.asInt : ParamValue → Option ℤ
  | .intV n => some n
  | _ => none

def ParamValue.asUInt : ParamValue → Option ℕ
  | .uintV n => some n
  | _ => none

def ParamValue.asFloat : ParamValue → Option ℚ
  | .floatV f => some f
  | _ => none

def ParamValue.asDouble : ParamValue → Option ℚ
  | .doubleV d => some d
  | _ => none

def ParamValue.asChar : ParamValue → Option Char
  | .charV c => some c
  | _ => none

def ParamValue.asStr : ParamValue → Option String
  | .strV s => some s
  | _ => none

def ParamValue.asVector3 : ParamValue → Option Vec3
  | .vector3V v => some v
  | _ => none

def ParamValue.asVector2i : ParamValue → Option Vec2i
  | .vector2iV v => some v
  | _ => none

def ParamValue.asVector2d : ParamValue → Option Vec2d
  | .vector2dV v => some v
  | _ => none

def ParamValue.asQuaternion : ParamValue → Option Quaternion
  | .quaternionV q => some q
  | _ => none

def ParamValue.asPose : ParamValue → Option Pose
  | .poseV p => some p
  | _ => none

def ParamValue.asColor : ParamValue → Option Color
  | .colorV c => some c
  | _ => none

def ParamValue.asTime : ParamValue → Option Time
  | .timeV t => some t
  | _ => none

/-- `Param::Get(bool&)`: out-parameter style — the pair is (return value,
out-parameter after the call), the argument `v` being the out-parameter's
value before the call (untouched on failure). -/
def Param.GetBool (p : Param) (v : Bool) : Bool × Bool :=
  if p.IsBool then (true, p.value.asBool.getD v) else (false, v)

/-- `Param::Get(int&)`. -/
def Param.GetInt (p : Param) (v : ℤ) : Bool × ℤ :=
  if p.IsInt then (true, p.value.asInt.getD v) else (false, v)

/-- `Param::Get(unsigned int&)`. -/
def Param.GetUInt (p : Param) (v : ℕ) : Bool × ℕ :=
  if p.IsUInt then (true, p.value.asUInt.getD v) else (false, v)

/-- `Param::Get(float&)`. -/
def Param.GetFloat (p : Param) (v : ℚ) : Bool × ℚ :=
  if p.IsFloat then (true, p.value.asFloat.getD v) else (false, v)

/-- `Param::Get(double&)`. -/
def Param.GetDouble (p : Param) (v : ℚ) : Bool × ℚ :=
  if p.IsDouble then (true, p.value.asDouble.getD v) else (false, v)

/-- `Param::Get(char&)`. -/
def Param.GetChar (p : Param) (v : Char) : Bool × Char :=
  if p.IsChar then (true, p.value.asChar.getD v) else (false, v)

/-- `Param::Get(std::string&)`. -/
def Param.GetStr (p : Param) (v : String) : Bool × String :=
  if p.IsStr then (true, p.value.asStr.getD v) else (false, v)

/-- `Param::Get(Quaternion&)`. -/
def Param.GetQuaternion (p : Param) (v : Quaternion) : Bool × Quaternion :=
  if p.IsQuaternion then (true, p.value.asQuaternion.getD v) else (false, v)

/-- `Param::Get(Pose&)`. -/
def Param.GetPose (p : Param) (v : Pose) : Bool × Pose :=
  if p.IsPose then (true, p.value.asPose.getD v) else (false, v)

/-- `Param::Get(Color&)`. -/
def Param.GetColor (p : Param) (v : Color) : Bool × Color :=
  if p.IsColor then (true, p.value.asColor.getD v) else (false, v)

/-- `Param::Get(Time&)`. -/
def Param.GetTime (p : Param) (v : Time) : Bool × Time :=
  if p.IsTime then (true, p.value.asTime.getD v) else (false, v)

/-- `Param::Get(Vector3&)`: tag match returns the stored payload; otherwise
the fallback re-parses the handle's string form.  `none` marks the
out-of-bounds vector subscript (undefined behaviour) the fallback can reach;
otherwise the pair is (return value, out-parameter after the call). -/
def Param.GetVector3 (p : Param) (v : Vec3) : Option (Bool × Vec3) :=
  if p.IsVector3 then some (true, p.value.asVector3.getD v)
  else
    match parseVec3 p.GetAsString with
    | .ok x y z => some (true, ⟨x, y, z⟩)
    | .wrongCount => some (false, v)
    | .invalidNumber => some (false, v)
    | .outOfBounds => none

/-- `Param::Get(Vector2i&)`. -/
def Param.GetVector2i (p : Param) (v : Vec2i) : Option (Bool × Vec2i) :=
  if p.IsVector2i then some (true, p.value.asVector2i.getD v)
  else
    match parseVec2i p.GetAsString with
    | .ok x y => some (true, ⟨x, y⟩)
    | .wrongCount => some (false, v)
    | .invalidNumber => some (false, v)
    | .outOfBounds => none

/-- `Param::Get(Vector2d&)`. -/
def Param.GetVector2d (p : Param) (v : Vec2d) : Option (Bool × Vec2d) :=
  if p.IsVector2d then some (true, p.value.asVector2d.getD v)
  else
    match parseVec2d p.GetAsString with
    | .ok x y => some (true, ⟨x, y⟩)
    | .wrongCount => some (false, v)
    | .invalidNumber => some (false, v)
    | .outOfBounds => none

/-- The process-wide parameter registry `Param::params`, a possibly-null
(`none` = inactive) ordered list of the handles registered so far. -/
def ParamRegistry : Type := Option (List Param)

/-- The registration step of the `Param::Param` constructor: `if (params)
params->push_back(_newParam);` — append when the registry is active, no-op
when it is inactive. -/
def registerParam (registry : ParamRegistry) (p : Param) : ParamRegistry :=
  match registry with
  | none => none
  | some ps => some (ps ++ [p])

/-- Constructing a sequence of handles in order, each running the
registration step against the current registry. -/
def constructParams (registry : ParamRegistry) (ps : List Param) :
    ParamRegistry :=
  ps.foldl registerParam registry

/-- A `boost::any` as used by the dispatcher: exactly the alternatives the
source ever stores in it (including the distinct `float` tag — an
`any_cast<double>` on a float-holding `any` fails). -/
inductive AnyValue where
  | doubleA (d : ℚ)
  | intA (n : ℤ)
  | stringA (s : String)
  | vector3A (v : Vec3)
  | boolA (b : Bool)
  | floatA (f : ℚ)
deriving DecidableEq, Repr

/-- `boost::any_cast<double>`: succeeds only on the double alternative. -/
def anyCastDouble : AnyValue → Option ℚ
  | .doubleA d => some d
  | _ => none

/-- `boost::any_cast<math::Vector3>`. -/
def anyCastVector3 : AnyValue → Option Vec3
  | .vector3A v => some v
  | _ => none

/-- The engine state touched by the dispatcher: the three scalar members of
`PhysicsEngine`, the mirrored SDF description-tree elements, the gravity
vector, and the (read-only) engine type name. -/
structure EngineState where
  maxStepSize : ℚ
  realTimeUpdateRate : ℚ
  targetRealTimeFactor : ℚ
  sdfMaxStepSize : ℚ
  sdfRealTimeUpdateRate : ℚ
  sdfRealTimeFactor : ℚ
  gravity : Vec3
  sdfGravity : Vec3
  sdfMagneticField : Vec3
  engineType : String
deriving DecidableEq, Repr

/-- `PhysicsEngine::SetMaxStepSize`: writes the SDF element, then the
member. -/
def SetMaxStepSize (st : EngineState) (d : ℚ) : EngineState :=
  { st with sdfMaxStepSize := d, maxStepSize := d }

/-- `PhysicsEngine::SetRealTimeUpdateRate`. -/
def SetRealTimeUpdateRate (st : EngineState) (d : ℚ) : EngineState :=
  { st with sdfRealTimeUpdateRate := d, realTimeUpdateRate := d }

/-- `PhysicsEngine::SetTargetRealTimeFactor`. -/
def SetTargetRealTimeFactor (st : EngineState) (d : ℚ) : EngineState :=
  { st with sdfRealTimeFactor := d, targetRealTimeFactor := d }

/-- Modelled from the spec: `PhysicsEngine::SetGravity` is pure virtual in
this file (implemented by each concrete engine); per §3 the gravity field is
engine-owned and changes are persisted back into the description tree. -/
def SetGravity (st : EngineState) (v : Vec3) : EngineState :=
  { st with gravity := v, sdfGravity := v }

/-- `PhysicsEngine::SetParam`: key dispatch with `boost::any_cast`s inside a
`try`; a `bad_any_cast` is caught and converted to a `false` return with no
state change (the cast happens before any mutation).  Returns (return value,
engine state after the call). -/
def SetParam (st : EngineState) (key : String) (value : AnyValue) :
    Bool × EngineState :=
  if key = "type" then (false, st)
  else if key = "max_step_size" then
    match anyCastDouble value with
    | some d => (true, SetMaxStepSize st d)
    | none => (false, st)
  else if key = "real_time_update_rate" then
    match anyCastDouble value with
    | some d => (true, SetRealTimeUpdateRate st d)
    | none => (false, st)
  else if key = "real_time_factor" then
    match anyCastDouble value with
    | some d => (true, SetTargetRealTimeFactor st d)
    | none => (false, st)
  else if key = "gravity" then
    match anyCastVector3 value with
    | some v => (true, SetGravity st v)
    | none => (false, st)
  else if key = "magnetic_field" then
    match anyCastVector3 value with
    | some v => (true, { st with sdfMagneticField := v })
    | none => (false, st)
  else (false, st)

/-- `PhysicsEngine::GetParam(key, any&)`: out-parameter style — the pair is
(return value, out-parameter after the call), `value` being the
out-parameter's value before the call (untouched on failure). -/
def GetParam (st : EngineState) (key : String) (value : AnyValue) :
    Bool × AnyValue :=
  if key = "type" then (true, .stringA st.engineType)
  else if key = "max_step_size" then (true, .doubleA st.maxStepSize)
  else if key = "real_time_update_rate" then
    (true, .doubleA st.realTimeUpdateRate)
  else if key = "real_time_factor" then
    (true, .doubleA st.targetRealTimeFactor)
  else if key = "gravity" then (true, .vector3A st.sdfGravity)
  else if key = "magnetic_field" then (true, .vector3A st.sdfMagneticField)
  else (false, value)

/-- The explicit type discriminator of a `msgs::NamedParam` entry. -/
inductive NamedParamType where
  | DOUBLE_TYPE
  | INT_TYPE
  | STRING_TYPE
  | VECTOR3D_TYPE
  | BOOL_TYPE
  | FLOAT_TYPE
deriving DecidableEq, Repr

/-- One entry of a physics update message (`msgs::NamedParam`): a name, an
optional explicit type discriminator, and optional value fields (`none`
models `has_<field>() == false`; an accessor on an unset field returns the
protobuf default). -/
structure NamedParam where
  name : String
  typeTag : Option NamedParamType
  doubleValue : Option ℚ
  intValue : Option ℤ
  stringValue : Option String
  vector3dValue : Option Vec3
  boolValue : Option Bool
  floatValue : Option ℚ
deriving DecidableEq, Repr

/-- The per-entry decode step of `PhysicsEngine::OnPhysicsMsg`: with an
explicit discriminator, read the named field (protobuf default if unset);
without one, probe the optional fields in the fixed source order double,
int, string, vector3, bool, float; `none` means the entry is skipped with a
warning. -/
def decodeEntry (p : NamedParam) : Option AnyValue :=
  match p.typeTag with
  | some .DOUBLE_TYPE => some (.doubleA (p.doubleValue.getD 0))
  | some .INT_TYPE => some (.intA (p.intValue.getD 0))
  | some .STRING_TYPE => some (.stringA (p.stringValue.getD ""))
  | some .VECTOR3D_TYPE => some (.vector3A (p.vector3dValue.getD ⟨0, 0, 0⟩))
  | some .BOOL_TYPE => some (.boolA (p.boolValue.getD false))
  | some .FLOAT_TYPE => some (.floatA (p.floatValue.getD 0))
  | none =>
    match p.doubleValue with
    | some d => some (.doubleA d)
    | none =>
      match p.intValue with
      | some n => some (.intA n)
      | none =>
        match p.stringValue with
        | some s => some (.stringA s)
        | none =>
          match p.vector3dValue with
          | some v => some (.vector3A v)
          | none =>
            match p.boolValue with
            | some b => some (.boolA b)
            | none =>
              match p.floatValue with
              | some f => some (.floatA f)
              | none => none

/-- One loop iteration of `OnPhysicsMsg`: decode the entry; if it decodes,
feed it to `SetParam` (whose return value the loop ignores); otherwise
`continue`. -/
def dispatchEntry (st : EngineState) (p : NamedParam) : EngineState :=
  match decodeEntry p with
  | some v => (SetParam st p.name v).2
  | none => st

/-- `PhysicsEngine::OnPhysicsMsg`: iterate the message's entries in order. -/
def OnPhysicsMsg (st : EngineState) (msg : List NamedParam) : EngineState :=
  msg.foldl dispatchEntry st

/-! ## Theorems -/

/-- Helper: folding registration over a list of handles appends them in
order. -/
theorem constructParams_some (acc ps : List Param) :
    constructParams (some acc) ps = some (acc ++ ps) := by
  induction ps generalizing acc with
  | nil => simp [constructParams]
  | cons p rest ih =>
    simp only [constructParams, List.foldl_cons, registerParam] at *
    rw [ih]
    simp

/-- Claim C1 (counterexample): the string `"1  2   3"` (with extra spaces)
does not parse to (1,2,3) in the vector3 fallback; it fails with the
wrong-component-count error, because the component count is checked on the
raw split — six pieces here — before any empty token is skipped. -/
theorem vec3_extra_spaces_fails_wrong_count :
    parseVec3 "1  2   3" = Vec3Parse.wrongCount ∧
      parseVec3 "1  2   3" ≠ Vec3Parse.ok 1 2 3 := by
  have h : parseVec3 "1  2   3" = Vec3Parse.wrongCount := by decide
  refine ⟨h, ?_⟩
  rw [h]
  intro hc
  cases hc

/-- Claim C1 (amended): in the vector-typed Get fallback the component count
is checked on the RAW whitespace split, empty tokens included, before any
skipping; the wrong-component-count error occurs exactly when the raw token
count differs from the required arity (3 for vector3, 2 for
vector2i/vector2d), so `"1  2   3"` (raw count 6) fails with
wrong-component-count; when the raw count matches and every token is
non-empty and numeric, the parse succeeds with the parsed components. -/
theorem vec_fallback_raw_count_checked :
    (∀ s : String,
        parseVec3 s = Vec3Parse.wrongCount ↔ (splitOnSpace s).length ≠ 3) ∧
    (∀ s : String,
        parseVec2i s = Vec2Parse.wrongCount ↔ (splitOnSpace s).length ≠ 2) ∧
    (∀ s : String,
        parseVec2d s = Vec2Parse.wrongCount ↔ (splitOnSpace s).length ≠ 2) ∧
    parseVec3 "1  2   3" = Vec3Parse.wrongCount ∧
    (∀ (s : String) (a b c : List Char), splitOnSpace s = [a, b, c] →
        a ≠ [] → b ≠ [] → c ≠ [] →
        ∀ x y z : ℚ, parseDouble a = some x → parseDouble b = some y →
          parseDouble c = some z → parseVec3 s = Vec3Parse.ok x y z) := by
  refine ⟨?_, ?_, ?_, by decide, ?_⟩
  · intro s
    unfold parseVec3
    by_cases h : (splitOnSpace s).length = 3
    · simp only [h, ne_eq, not_true_eq_false, if_false]
      constructor
      · intro hc
        exfalso
        revert hc
        split <;> (intro hc; first | exact Vec3Parse.noConfusion hc |
          (revert hc; split <;> intro hc <;> exact Vec3Parse.noConfusion hc))
      · intro hc
        exact hc.elim
    · simp [h]
  · intro s
    unfold parseVec2i
    by_cases h : (splitOnSpace s).length = 2
    · simp only [h, ne_eq, not_true_eq_false, if_false]
      constructor
      · intro hc
        exfalso
        revert hc
        split <;> (intro hc; first | exact Vec2Parse.noConfusion hc |
          (revert hc; split <;> intro hc <;> exact Vec2Parse.noConfusion hc))
      · intro hc
        exact hc.elim
    · simp [h]
  · intro s
    unfold parseVec2d
    by_cases h : (splitOnSpace s).length = 2
    · simp only [h, ne_eq, not_true_eq_false, if_false]
      constructor
      · intro hc
        exfalso
        revert hc
        split <;> (intro hc; first | exact Vec2Parse.noConfusion hc |
          (revert hc; split <;> intro hc <;> exact Vec2Parse.noConfusion hc))
      · intro hc
        exact hc.elim
    · simp [h]
  · intro s a b c hsplit ha hb hc x y z hx hy hz
    unfold parseVec3
    rw [hsplit]
    simp [collectElements, ha, hb, hc, hx, hy, hz]

/-- Witness for the amended C1 theorem at concrete inputs. -/
theorem vec_fallback_raw_count_checked_witness :
    parseVec3 "7 8 9" = Vec3Parse.ok 7 8 9 :=
  vec_fallback_raw_count_checked.2.2.2.2 "7 8 9" ['7'] ['8'] ['9']
    (by decide) (by decide) (by decide) (by decide) 7 8 9
    (by simp [parseDouble, digitsVal]) (by simp [parseDouble, digitsVal])
    (by simp [parseDouble, digitsVal])

/-- Claim C10: the vector fallback's final component reads are NOT always in
bounds.  A non-vector3 handle whose string form is `"1 2 "` splits into
exactly 3 raw pieces, the empty third piece is skipped during numeric
parsing, so only 2 elements are parsed — yet the code reads `elements[2]`,
an out-of-bounds `std::vector` subscript (undefined behaviour, modelled as
the `outOfBounds` / `none` outcome).  The vector2i fallback has the same
flaw at `"3 "`. -/
theorem vec_fallback_out_of_bounds_read :
    parseVec3 "1 2 " = Vec3Parse.outOfBounds ∧
      (Param.mk "p" false false "" (.strV "1 2 ")).GetVector3 ⟨9, 9, 9⟩ =
        none ∧
      parseVec2i "3 " = Vec2Parse.outOfBounds ∧
      (Param.mk "p" false false "" (.strV "3 ")).GetVector2i ⟨9, 9⟩ =
        none := by
  refine ⟨by decide, ?_, by decide, ?_⟩ <;> decide

/-- Claim C2: for every handle whose tag is not the vector tag, the
vector-typed Get does not fail outright but re-parses the handle's current
string form as a whitespace-separated vector (shown for all three vector
kinds); in particular a handle constructed as string with value `"4 5 6"`
succeeds under the Vector3 Get, returning (4,5,6), while the int Get on the
same handle returns false. -/
theorem vector_get_fallback_reparses :
    (∀ (p : Param) (v : Vec3), p.IsVector3 = false →
        p.GetVector3 v =
          match parseVec3 p.GetAsString with
          | .ok x y z => some (true, ⟨x, y, z⟩)
          | .wrongCount => some (false, v)
          | .invalidNumber => some (false, v)
          | .outOfBounds => none) ∧
    (∀ (p : Param) (v : Vec2i), p.IsVector2i = false →
        p.GetVector2i v =
          match parseVec2i p.GetAsString with
          | .ok x y => some (true, ⟨x, y⟩)
          | .wrongCount => some (false, v)
          | .invalidNumber => some (false, v)
          | .outOfBounds => none) ∧
    (∀ (p : Param) (v : Vec2d), p.IsVector2d = false →
        p.GetVector2d v =
          match parseVec2d p.GetAsString with
          | .ok x y => some (true, ⟨x, y⟩)
          | .wrongCount => some (false, v)
          | .invalidNumber => some (false, v)
          | .outOfBounds => none) ∧
    (Param.mk "p" false false "" (.strV "4 5 6")).GetVector3 ⟨0, 0, 0⟩ =
      some (true, ⟨4, 5, 6⟩) ∧
    (Param.mk "p" false false "" (.strV "4 5 6")).GetInt 7 = (false, 7) := by
  refine ⟨?_, ?_, ?_, ?_, by decide⟩
  · intro p v h
    simp [Param.GetVector3, h]
  · intro p v h
    simp [Param.GetVector2i, h]
  · intro p v h
    simp [Param.GetVector2d, h]
  · have hp : parseVec3 "4 5 6" = Vec3Parse.ok 4 5 6 := by
      simp [parseVec3, splitOnSpace, splitSpAux, collectElements, parseDouble,
        digitsVal]
    simp [Param.GetVector3, Param.IsVector3, Param.GetTypeName,
      ParamValue.typeName, Param.GetAsString, ParamValue.toStr, hp]

/-- Witness for the C2 theorem at a concrete input: a string handle holding
`"1 2"` read through the Vector3 Get takes the fallback and fails with the
wrong-component-count outcome, leaving the out-parameter untouched. -/
theorem vector_get_fallback_reparses_witness :
    (Param.mk "q" false false "" (.strV "1 2")).GetVector3 ⟨5, 5, 5⟩ =
      some (false, ⟨5, 5, 5⟩) := by
  have h := vector_get_fallback_reparses.1
    (Param.mk "q" false false "" (.strV "1 2")) ⟨5, 5, 5⟩ (by decide)
  rw [h]
  decide

/-- Claim C5: every scalar-typed Get checks the handle's type tag first; on a
mismatch it returns false and leaves the out-parameter untouched (no
exception), and on a match it returns the stored typed payload. Stated for
all eleven scalar kinds: bool, int, unsigned int, float, double, char,
string, quaternion, pose, color, time. -/
theorem scalar_get_tag_checked (p : Param) :
    ((∀ v, p.IsBool = false → p.GetBool v = (false, v)) ∧
      ∀ v b, p.value = .boolV b → p.GetBool v = (true, b)) ∧
    ((∀ v, p.IsInt = false → p.GetInt v = (false, v)) ∧
      ∀ v n, p.value = .intV n → p.GetInt v = (true, n)) ∧
    ((∀ v, p.IsUInt = false → p.GetUInt v = (false, v)) ∧
      ∀ v n, p.value = .uintV n → p.GetUInt v = (true, n)) ∧
    ((∀ v, p.IsFloat = false → p.GetFloat v = (false, v)) ∧
      ∀ v f, p.value = .floatV f → p.GetFloat v = (true, f)) ∧
    ((∀ v, p.IsDouble = false → p.GetDouble v = (false, v)) ∧
      ∀ v d, p.value = .doubleV d → p.GetDouble v = (true, d)) ∧
    ((∀ v, p.IsChar = false → p.GetChar v = (false, v)) ∧
      ∀ v c, p.value = .charV c → p.GetChar v = (true, c)) ∧
    ((∀ v, p.IsStr = false → p.GetStr v = (false, v)) ∧
      ∀ v s, p.value = .strV s → p.GetStr v = (true, s)) ∧
    ((∀ v, p.IsQuaternion = false → p.GetQuaternion v = (false, v)) ∧
      ∀ v q, p.value = .quaternionV q → p.GetQuaternion v = (true, q)) ∧
    ((∀ v, p.IsPose = false → p.GetPose v = (false, v)) ∧
      ∀ v q, p.value = .poseV q → p.GetPose v = (true, q)) ∧
    ((∀ v, p.IsColor = false → p.GetColor v = (false, v)) ∧
      ∀ v c, p.value = .colorV c → p.GetColor v = (true, c)) ∧
    ((∀ v, p.IsTime = false → p.GetTime v = (false, v)) ∧
      ∀ v t, p.value = .timeV t → p.GetTime v = (true, t)) := by
  refine ⟨⟨?_, ?_⟩, ⟨?_, ?_⟩, ⟨?_, ?_⟩, ⟨?_, ?_⟩, ⟨?_, ?_⟩, ⟨?_, ?_⟩,
    ⟨?_, ?_⟩, ⟨?_, ?_⟩, ⟨?_, ?_⟩, ⟨?_, ?_⟩, ⟨?_, ?_⟩⟩
  · intro v h; simp [Param.GetBool, h]
  · intro v b hv
    simp [Param.GetBool, Param.IsBool, Param.GetTypeName, hv,
      ParamValue.typeName, ParamValue.asBool]
  · intro v h; simp [Param.GetInt, h]
  · intro v n hv
    simp [Param.GetInt, Param.IsInt, Param.GetTypeName, hv,
      ParamValue.typeName, ParamValue.asInt]
  · intro v h; simp [Param.GetUInt, h]
  · intro v n hv
    simp [Param.GetUInt, Param.IsUInt, Param.GetTypeName, hv,
      ParamValue.typeName, ParamValue.asUInt]
  · intro v h; simp [Param.GetFloat, h]
  · intro v f hv
    simp [Param.GetFloat, Param.IsFloat, Param.GetTypeName, hv,
      ParamValue.typeName, ParamValue.asFloat]
  · intro v h; simp [Param.GetDouble, h]
  · intro v d hv
    simp [Param.GetDouble, Param.IsDouble, Param.GetTypeName, hv,
      ParamValue.typeName, ParamValue.asDouble]
  · intro v h; simp [Param.GetChar, h]
  · intro v c hv
    simp [Param.GetChar, Param.IsChar, Param.GetTypeName, hv,
      ParamValue.typeName, ParamValue.asChar]
  · intro v h; simp [Param.GetStr, h]
  · intro v s hv
    simp [Param.GetStr, Param.IsStr, Param.GetTypeName, hv,
      ParamValue.typeName, ParamValue.asStr]
  · intro v h; simp [Param.GetQuaternion, h]
  · intro v q hv
    simp [Param.GetQuaternion, Param.IsQuaternion, Param.GetTypeName, hv,
      ParamValue.typeName, ParamValue.asQuaternion]
  · intro v h; simp [Param.GetPose, h]
  · intro v q hv
    simp [Param.GetPose, Param.IsPose, Param.GetTypeName, hv,
      ParamValue.typeName, ParamValue.asPose]
  · intro v h; simp [Param.GetColor, h]
  · intro v c hv
    simp [Param.GetColor, Param.IsColor, Param.GetTypeName, hv,
      ParamValue.typeName, ParamValue.asColor]
  · intro v h; simp [Param.GetTime, h]
  · intro v t hv
    simp [Param.GetTime, Param.IsTime, Param.GetTypeName, hv,
      ParamValue.typeName, ParamValue.asTime]

/-- Witness for the C5 theorem: a handle constructed as double returns false
for the int Get leaving the output untouched, and returns its stored payload
for the double Get. -/
theorem scalar_get_tag_checked_witness :
    (Param.mk "k" false false "" (.doubleV 3)).GetInt 7 = (false, 7) ∧
      (Param.mk "k" false false "" (.doubleV 3)).GetDouble 7 = (true, 3) :=
  ⟨(scalar_get_tag_checked (Param.mk "k" false false "" (.doubleV 3))).2.1.1
      7 (by decide),
    (scalar_get_tag_checked
          (Param.mk "k" false false "" (.doubleV 3))).2.2.2.2.1.2
      7 3 rfl⟩

/-- A concrete engine state used by witnesses. -/
def sampleState : EngineState :=
  ⟨1, 2, 3, 1, 2, 3, ⟨0, 0, -9⟩, ⟨0, 0, -9⟩, ⟨1, 2, 3⟩, "ode"⟩

/-- Claim C3: for every recognized SetParam key, a supplied value whose
contained type does not match the key's expected type (double for the three
scalar keys, Vector3 for gravity and magnetic_field) makes SetParam return
false with the engine state — members and SDF description-tree elements —
completely unchanged; the failure is a caught bad-any-cast, not an escaping
exception, which the total function embedding reflects. -/
theorem setparam_mismatch_atomic (st : EngineState) (v : AnyValue) :
    (anyCastDouble v = none → SetParam st "max_step_size" v = (false, st)) ∧
    (anyCastDouble v = none →
      SetParam st "real_time_update_rate" v = (false, st)) ∧
    (anyCastDouble v = none →
      SetParam st "real_time_factor" v = (false, st)) ∧
    (anyCastVector3 v = none → SetParam st "gravity" v = (false, st)) ∧
    (anyCastVector3 v = none →
      SetParam st "magnetic_field" v = (false, st)) := by
  refine ⟨?_, ?_, ?_, ?_, ?_⟩ <;> intro h <;> simp [SetParam, h]

/-- Witness for the C3 theorem: setting max_step_size from a string-holding
value fails and leaves the state unchanged. -/
theorem setparam_mismatch_atomic_witness :
    SetParam sampleState "max_step_size" (.stringA "fast") =
      (false, sampleState) :=
  (setparam_mismatch_atomic sampleState (.stringA "fast")).1 rfl

/-- Claim C6: SetParam with the read-only key "type" returns false for every
value and every state, unchanged; and every key outside the dispatch table
(type plus the five writable keys) returns false without mutating any
field. -/
theorem setparam_rejects_readonly_and_unknown :
    (∀ (st : EngineState) (v : AnyValue),
        SetParam st "type" v = (false, st)) ∧
    (∀ (st : EngineState) (k : String) (v : AnyValue),
        k ∉ (["type", "max_step_size", "real_time_update_rate",
              "real_time_factor", "gravity", "magnetic_field"] :
            List String) →
        SetParam st k v = (false, st)) := by
  constructor
  · intro st v
    simp [SetParam]
  · intro st k v h
    simp only [List.mem_cons, List.not_mem_nil, or_false, not_or] at h
    obtain ⟨h1, h2, h3, h4, h5, h6⟩ := h
    simp [SetParam, h1, h2, h3, h4, h5, h6]

/-- Witness for the C6 theorem: both the read-only key and an unknown key
are rejected on a concrete state without mutation. -/
theorem setparam_rejects_readonly_and_unknown_witness :
    SetParam sampleState "type" (.stringA "bullet") = (false, sampleState) ∧
      SetParam sampleState "solver" (.doubleA 5) = (false, sampleState) :=
  ⟨setparam_rejects_readonly_and_unknown.1 sampleState (.stringA "bullet"),
    setparam_rejects_readonly_and_unknown.2 sampleState "solver"
      (.doubleA 5) (by decide)⟩

/-- Claim C8: GetParam succeeds and produces the current value for exactly
the keys type, max_step_size, real_time_update_rate, real_time_factor,
gravity and magnetic_field (the SetParam key set plus the always-readable
type), and returns false for every other key, leaving the out-parameter
untouched. -/
theorem getparam_key_set (st : EngineState) (out : AnyValue) :
    GetParam st "type" out = (true, .stringA st.engineType) ∧
    GetParam st "max_step_size" out = (true, .doubleA st.maxStepSize) ∧
    GetParam st "real_time_update_rate" out =
      (true, .doubleA st.realTimeUpdateRate) ∧
    GetParam st "real_time_factor" out =
      (true, .doubleA st.targetRealTimeFactor) ∧
    GetParam st "gravity" out = (true, .vector3A st.sdfGravity) ∧
    GetParam st "magnetic_field" out =
      (true, .vector3A st.sdfMagneticField) ∧
    (∀ k : String,
        k ∉ (["type", "max_step_size", "real_time_update_rate",
              "real_time_factor", "gravity", "magnetic_field"] :
            List String) →
        GetParam st k out = (false, out)) := by
  refine ⟨by simp [GetParam], by simp [GetParam], by simp [GetParam],
    by simp [GetParam], by simp [GetParam], by simp [GetParam], ?_⟩
  intro k h
  simp only [List.mem_cons, List.not_mem_nil, or_false, not_or] at h
  obtain ⟨h1, h2, h3, h4, h5, h6⟩ := h
  simp [GetParam, h1, h2, h3, h4, h5, h6]

/-- Witness for the C8 theorem: reads on a concrete state. -/
theorem getparam_key_set_witness :
    GetParam sampleState "max_step_size" (.boolA false) =
      (true, .doubleA 1) ∧
      GetParam sampleState "friction" (.boolA false) =
        (false, .boolA false) :=
  ⟨(getparam_key_set sampleState (.boolA false)).2.1,
    (getparam_key_set sampleState (.boolA false)).2.2.2.2.2.2 "friction"
      (by decide)⟩

/-- Claim C4: an update-message entry without an explicit type discriminator
is decoded by probing the optional payload fields in the fixed order double,
int, string, vector3, bool, float — the first populated field wins; in
particular an entry with both int and string fields populated (and no tag)
decodes as int. -/
theorem legacy_decode_precedence :
    (∀ p : NamedParam, p.typeTag = none →
      ((∀ d, p.doubleValue = some d → decodeEntry p = some (.doubleA d)) ∧
       (p.doubleValue = none → ∀ n, p.intValue = some n →
         decodeEntry p = some (.intA n)) ∧
       (p.doubleValue = none → p.intValue = none →
         ∀ s, p.stringValue = some s →
           decodeEntry p = some (.stringA s)) ∧
       (p.doubleValue = none → p.intValue = none → p.stringValue = none →
         ∀ w, p.vector3dValue = some w →
           decodeEntry p = some (.vector3A w)) ∧
       (p.doubleValue = none → p.intValue = none → p.stringValue = none →
         p.vector3dValue = none → ∀ b, p.boolValue = some b →
           decodeEntry p = some (.boolA b)) ∧
       (p.doubleValue = none → p.intValue = none → p.stringValue = none →
         p.vector3dValue = none → p.boolValue = none →
           ∀ f, p.floatValue = some f →
             decodeEntry p = some (.floatA f)))) ∧
    (∀ (nm : String) (n : ℤ) (s : String),
        decodeEntry ⟨nm, none, none, some n, some s, none, none, none⟩ =
          some (.intA n)) := by
  constructor
  · intro p ht
    refine ⟨?_, ?_, ?_, ?_, ?_, ?_⟩
    · intro d hd
      simp [decodeEntry, ht, hd]
    · intro h1 n hn
      simp [decodeEntry, ht, h1, hn]
    · intro h1 h2 s hs
      simp [decodeEntry, ht, h1, h2, hs]
    · intro h1 h2 h3 w hw
      simp [decodeEntry, ht, h1, h2, h3, hw]
    · intro h1 h2 h3 h4 b hb
      simp [decodeEntry, ht, h1, h2, h3, h4, hb]
    · intro h1 h2 h3 h4 h5 f hf
      simp [decodeEntry, ht, h1, h2, h3, h4, h5, hf]
  · intro nm n s
    rfl

/-- Witness for the C4 theorem: an untagged entry carrying both a double and
an int decodes as the double (the earlier field in the fixed order). -/
theorem legacy_decode_precedence_witness :
    decodeEntry ⟨"w", none, some 2, some 5, none, none, none, none⟩ =
      some (.doubleA 2) :=
  ((legacy_decode_precedence.1
        ⟨"w", none, some 2, some 5, none, none, none, none⟩ rfl).1) 2 rfl

/-- Claim C7: OnPhysicsMsg processes message entries in order, dispatching
each decoded entry to SetParam independently; an entry with neither an
explicit tag nor any populated field decodes to nothing and is skipped; and
a skipped (or otherwise failing) entry does not prevent decoding and
dispatch of the surrounding entries — a 3-entry message with a malformed
second entry still dispatches entries 1 and 3. -/
theorem msg_entries_processed_independently :
    (∀ (st : EngineState) (p : NamedParam) (rest : List NamedParam),
        OnPhysicsMsg st (p :: rest) = OnPhysicsMsg (dispatchEntry st p) rest) ∧
    (∀ p : NamedParam, p.typeTag = none → p.doubleValue = none →
        p.intValue = none → p.stringValue = none → p.vector3dValue = none →
        p.boolValue = none → p.floatValue = none → decodeEntry p = none) ∧
    (∀ (st : EngineState) (pre post : List NamedParam) (p : NamedParam),
        decodeEntry p = none →
        OnPhysicsMsg st (pre ++ p :: post) = OnPhysicsMsg st (pre ++ post)) ∧
    (∀ (st : EngineState) (e1 e2 e3 : NamedParam), decodeEntry e2 = none →
        OnPhysicsMsg st [e1, e2, e3] = OnPhysicsMsg st [e1, e3]) := by
  have hskip : ∀ (st : EngineState) (pre post : List NamedParam)
      (p : NamedParam), decodeEntry p = none →
      OnPhysicsMsg st (pre ++ p :: post) = OnPhysicsMsg st (pre ++ post) := by
    intro st pre post p h
    induction pre generalizing st with
    | nil => simp [OnPhysicsMsg, dispatchEntry, h]
    | cons q rest ih =>
      simp only [List.cons_append, OnPhysicsMsg, List.foldl_cons]
      exact ih (dispatchEntry st q)
  refine ⟨fun st p rest => rfl, ?_, hskip, ?_⟩
  · intro p h1 h2 h3 h4 h5 h6 h7
    simp [decodeEntry, h1, h2, h3, h4, h5, h6, h7]
  · intro st e1 e2 e3 h
    exact hskip st [e1] [e3] e2 h

/-- Witness for the C7 theorem: a concrete 3-entry message whose empty
second entry is skipped. -/
theorem msg_entries_processed_independently_witness :
    OnPhysicsMsg sampleState
        [⟨"max_step_size", none, some 7, none, none, none, none, none⟩,
         ⟨"broken", none, none, none, none, none, none, none⟩,
         ⟨"real_time_factor", none, some 8, none, none, none, none, none⟩] =
      OnPhysicsMsg sampleState
        [⟨"max_step_size", none, some 7, none, none, none, none, none⟩,
         ⟨"real_time_factor", none, some 8, none, none, none, none, none⟩] :=
  msg_entries_processed_independently.2.2.2 sampleState
    ⟨"max_step_size", none, some 7, none, none, none, none, none⟩
    ⟨"broken", none, none, none, none, none, none, none⟩
    ⟨"real_time_factor", none, some 8, none, none, none, none, none⟩ rfl

/-- Claim C9: the registration step of the parameter-handle constructor is a
no-op (not an error) while the process-wide registry is inactive, and while
it is active each newly constructed handle is appended, so registry
membership order equals construction order. -/
theorem registry_order_is_construction_order :
    (∀ p : Param, registerParam none p = none) ∧
    (∀ (ps : List Param) (p : Param),
        registerParam (some ps) p = some (ps ++ [p])) ∧
    (∀ ps : List Param, constructParams (some []) ps = some ps) ∧
    (∀ ps : List Param, constructParams none ps = none) := by
  refine ⟨fun p => rfl, fun ps p => rfl, ?_, ?_⟩
  · intro ps
    rw [constructParams_some]
    simp
  · intro ps
    induction ps with
    | nil => rfl
    | cons p rest ih =>
      simp only [constructParams, List.foldl_cons, registerParam] at *
      exact ih

end Gazebo
